import Mathlib

/-!
Verification of the core model of the exoplanet orbit simulator
(`src/simulation/model.ts`): field extraction from raw catalog records,
habitable-zone derivation and classification, elliptical-orbit
kinematics, and the phase/time cursor.

JavaScript finite numbers are embedded as real numbers; `NaN` and the
infinities are a separate constructor.  A raw record is an association
list from string keys to JavaScript scalar values.
-/

namespace ExoSim

/-- A JavaScript scalar as it appears in a raw catalog record:
`null`, a finite number, a non-finite number (NaN or an infinity),
or a string. -/
inductive JSVal where
  | vNull
  | vNum (x : ℝ)
  | vNonFinite
  | vStr (s : String)

/-- A raw catalog record: an association list from field name to value.
A key that is absent models a JavaScript `undefined` property. -/
def RawRecord := List (String × JSVal)

/-- JavaScript property access `row[key]`: the first binding of the key,
`none` for `undefined`. -/
def rowGet : RawRecord → String → Option JSVal
  | [], _ => none
  | (k, v) :: rest, key => if k = key then some v else rowGet rest key

/-- Numeric value of a list of decimal digit characters; `none` if any
character is not a digit.  The empty list counts as 0, as in
the JavaScript values `Number("1.")` and `Number(".5")`. -/
def natOfDigits (cs : List Char) : Option Nat :=
  cs.foldl
    (fun acc c =>
      match acc with
      | some n => if c.isDigit then some (n * 10 + (c.toNat - 48)) else none
      | none => none)
    (some 0)

/-- Decimal numeral (digits, optionally with one decimal point);
`none` when the text is not such a numeral. -/
def parseDec (cs : List Char) : Option ℚ :=
  let intPart := cs.takeWhile (fun c => c ≠ '.')
  match cs.dropWhile (fun c => c ≠ '.') with
  | [] =>
    match natOfDigits intPart with
    | some n => if intPart = [] then none else some (n : ℚ)
    | none => none
  | _ :: frac =>
    if intPart = [] ∧ frac = [] then none
    else
      match natOfDigits intPart, natOfDigits frac with
      | some i, some f => some ((i : ℚ) + (f : ℚ) / (10 : ℚ) ^ frac.length)
      | _, _ => none

/-- Model of JavaScript `Number(string)` restricted to plain decimal
numerals with an optional sign: `none` stands for NaN (e.g. on
`"N/A"`), `some q` for the finite value `q`.  `Number("") = 0`. -/
def strToNum (s : String) : Option ℚ :=
  match s.toList with
  | [] => some 0
  | '-' :: rest => (parseDec rest).map Neg.neg
  | '+' :: rest => parseDec rest
  | cs => parseDec cs

/-- Combined model of JavaScript `Number(v)` followed by the
`Number.isFinite` test: `some x` exactly when the coercion of `v` is a
finite number `x`, `none` when it is NaN or an infinity.
`Number(null) = 0` is finite. -/
noncomputable def toNumber : JSVal → Option ℝ
  | .vNull => some 0
  | .vNum x => some x
  | .vNonFinite => none
  | .vStr s => (strToNum s).map (fun q => (q : ℝ))

/-- Model of JavaScript `key.toUpperCase()` for the ASCII field names
used here: upper-cases each character. -/
def jsToUpper (s : String) : String :=
  ⟨s.data.map Char.toUpper⟩

/-- `get(row, key)` from the source:
`row[key] ?? row[key.toUpperCase()] ?? null`. -/
def jsGet (row : RawRecord) (key : String) : JSVal :=
  match rowGet row key with
  | some .vNull | none =>
    match rowGet row (jsToUpper key) with
    | some .vNull | none => .vNull
    | some w => w
  | some v => v

/-- `num(row, key, fallback)` from the source:
`v != null && Number.isFinite(Number(v)) ? Number(v) : fallback`
where `v = get(row, key)`. -/
noncomputable def num (row : RawRecord) (key : String) (fallback : ℝ) : ℝ :=
  match jsGet row key with
  | .vNull => fallback
  | v =>
    match toNumber v with
    | some x => x
    | none => fallback

/-- The resolved finite numeric value of a field, if any: `none` when the
field resolves to null/undefined or its numeric coercion is non-finite.
`num row key fb = (resolvedNum row key).getD fb`. -/
noncomputable def resolvedNum (row : RawRecord) (key : String) : Option ℝ :=
  match jsGet row key with
  | .vNull => none
  | v => toNumber v

/-- String used for a display-name field: the string value when present
and non-empty (JavaScript `||` treats `""` as falsy), else the default.
Non-string values fall back to the default, reading the
`as string` cast in the source as a string-typed field. -/
def nameOr (v : JSVal) (dflt : String) : String :=
  match v with
  | .vStr s => if s = "" then dflt else s
  | _ => dflt

/-- Habitable-zone bounds in AU. -/
structure HZBounds where
  inner : ℝ
  outer : ℝ

/-- Argument of `habitableZoneAU`: a JavaScript `number | null`. -/
inductive LumInput where
  | null
  | nonfinite
  | fin (x : ℝ)

/-- `habitableZoneAU(stLum)` from the source: defaults for null or
non-finite log-luminosity, otherwise `0.75 * sqrt(10^stLum)` and
`1.77 * sqrt(10^stLum)`. -/
noncomputable def habitableZoneAU : LumInput → HZBounds
  | .null => ⟨0.75, 1.77⟩
  | .nonfinite => ⟨0.75, 1.77⟩
  | .fin l => ⟨0.75 * Real.sqrt ((10 : ℝ) ^ l), 1.77 * Real.sqrt ((10 : ℝ) ^ l)⟩

/-- The three-valued habitable-zone classification. -/
inductive HZStatus where
  | inZone
  | tooClose
  | tooFar
deriving DecidableEq

/-- A 3D point, as produced by `positionAtTime`. -/
structure Vec3 where
  x : ℝ
  y : ℝ
  z : ℝ

/-- `radiusAtAngle(t)` from the source, with the captured orbit radius
`a` and eccentricity `e` made explicit:
`a * (1 - e*e) / (1 + e * cos t)`. -/
noncomputable def radiusAtAngle (a e t : ℝ) : ℝ :=
  a * (1 - e * e) / (1 + e * Real.cos t)

/-- `positionAtTime(t)` from the source. -/
noncomputable def positionAtTime (a e t : ℝ) : Vec3 :=
  ⟨radiusAtAngle a e t * Real.cos t, 0, radiusAtAngle a e t * Real.sin t⟩

/-- `eccentricityKnown` from the source:
`plOrbeccenRaw != null && Number.isFinite(Number(plOrbeccenRaw))`. -/
noncomputable def eccKnown (v : JSVal) : Bool :=
  match v with
  | .vNull => false
  | v => (toNumber v).isSome

/-- The simulation state: the immutable derived parameters, the
precomputed orbit-point cache, and the mutable phase accumulator
(`time`).  The closure methods of the source become the functions
`update`, `getOrbitPoints`, `getPlanetPosition`, `getElapsedDays`,
`getElapsedYears` below. -/
structure SimState where
  plName : String
  hostName : String
  orbitAu : ℝ
  planetRadiusRe : ℝ
  hzInnerAu : ℝ
  hzOuterAu : ℝ
  inHabitableZone : Bool
  habitableZoneStatus : HZStatus
  orbitalPeriodDays : ℝ
  starRadius : ℝ
  orbitRadius : ℝ
  planetRadius : ℝ
  hzInner : ℝ
  hzOuter : ℝ
  orbitEccentricity : ℝ
  eccentricityKnown : Bool
  orbitPointsCache : List Vec3
  time : ℝ

/-- `SUN_RADIUS_AU` from the source. -/
def SUN_RADIUS_AU : ℝ := 0.005

/-- `MIN_STAR_RADIUS` from the source. -/
def MIN_STAR_RADIUS : ℝ := 0.012

/-- `MIN_PLANET_RADIUS` from the source. -/
def MIN_PLANET_RADIUS : ℝ := 0.008

open Classical in
/-- `createSimulationFromRow(row)` from the source.  The closure
variable `time` starts at 0; the orbit-point cache holds the 65 points
`positionAtTime((i/64) * 2π)` for `i = 0..64`. -/
noncomputable def createSimulationFromRow (row : RawRecord) : SimState :=
  let plName := nameOr (jsGet row "pl_name") "Planet"
  let hostName := nameOr (jsGet row "hostname") "Star"
  let stRad := num row "st_rad" 1
  let stLum := num row "st_lum" 0
  let plOrbsmax := num row "pl_orbsmax" 1
  let plOrbeccenRaw := jsGet row "pl_orbeccen"
  let eccentricityKnown := eccKnown plOrbeccenRaw
  let plOrbeccen := num row "pl_orbeccen" 0
  let plRade := num row "pl_rade" 1
  let plOrbper := num row "pl_orbper" 365
  let hzAu := habitableZoneAU (LumInput.fin stLum)
  let inHz : Bool := decide (plOrbsmax ≥ hzAu.inner ∧ plOrbsmax ≤ hzAu.outer)
  let habitableZoneStatus : HZStatus :=
    if inHz then .inZone else if plOrbsmax < hzAu.inner then .tooClose else .tooFar
  let orbitEccentricity := min 0.99 plOrbeccen
  let orbitRadius := plOrbsmax
  let hzInner := hzAu.inner
  let hzOuter := hzAu.outer
  let starRadius := max MIN_STAR_RADIUS (stRad * SUN_RADIUS_AU)
  let planetRadius := max MIN_PLANET_RADIUS (plRade * 0.00004)
  let orbitalPeriodDays := if plOrbper > 0 then plOrbper else 365
  { plName := plName
    hostName := hostName
    orbitAu := plOrbsmax
    planetRadiusRe := plRade
    hzInnerAu := hzAu.inner
    hzOuterAu := hzAu.outer
    inHabitableZone := inHz
    habitableZoneStatus := habitableZoneStatus
    orbitalPeriodDays := orbitalPeriodDays
    starRadius := starRadius
    orbitRadius := orbitRadius
    planetRadius := planetRadius
    hzInner := hzInner
    hzOuter := hzOuter
    orbitEccentricity := orbitEccentricity
    eccentricityKnown := eccentricityKnown
    orbitPointsCache :=
      (List.range 65).map
        (fun i => positionAtTime orbitRadius orbitEccentricity ((i : ℝ) / 64 * (Real.pi * 2)))
    time := 0 }

/-- `getOrbitPoints()` from the source: returns the cache. -/
def getOrbitPoints (s : SimState) : List Vec3 :=
  s.orbitPointsCache

/-- `update(deltaTime)` from the source: `time += deltaTime`. -/
def update (s : SimState) (deltaTime : ℝ) : SimState :=
  { s with time := s.time + deltaTime }

/-- `getPlanetPosition()` from the source: `positionAtTime(time)`. -/
noncomputable def getPlanetPosition (s : SimState) : Vec3 :=
  positionAtTime s.orbitRadius s.orbitEccentricity s.time

/-- `getElapsedDays()` from the source:
`(time / (2 * Math.PI)) * orbitalPeriodDays`. -/
noncomputable def getElapsedDays (s : SimState) : ℝ :=
  s.time / (2 * Real.pi) * s.orbitalPeriodDays

/-- `getElapsedYears()` from the source: `getElapsedDays() / 365.25`. -/
noncomputable def getElapsedYears (s : SimState) : ℝ :=
  getElapsedDays s / 365.25

/-! ## Helper lemmas -/

lemma sqrt_pow_pos (l : ℝ) : 0 < Real.sqrt ((10 : ℝ) ^ l) :=
  Real.sqrt_pos.mpr (Real.rpow_pos_of_pos (by norm_num) l)

lemma hz_fin_inner_lt_outer (l : ℝ) :
    (habitableZoneAU (.fin l)).inner < (habitableZoneAU (.fin l)).outer := by
  show 0.75 * Real.sqrt ((10 : ℝ) ^ l) < 1.77 * Real.sqrt ((10 : ℝ) ^ l)
  exact mul_lt_mul_of_pos_right (by norm_num) (sqrt_pow_pos l)

/-! ## Claims -/

/-- C2: `habitableZoneAU` returns exactly `{inner: 0.75, outer: 1.77}` for a
null or non-finite argument; for every finite log-luminosity it returns
`inner = 0.75 * sqrt(10^logLum)` and `outer = 1.77 * sqrt(10^logLum)`,
and the returned inner bound is strictly below the outer bound. -/
theorem C2_habitableZoneAU_formula_and_defaults :
    habitableZoneAU .null = ⟨0.75, 1.77⟩ ∧
    habitableZoneAU .nonfinite = ⟨0.75, 1.77⟩ ∧
    (∀ l : ℝ, habitableZoneAU (.fin l) =
      ⟨0.75 * Real.sqrt ((10 : ℝ) ^ l), 1.77 * Real.sqrt ((10 : ℝ) ^ l)⟩) ∧
    (∀ l : ℝ, (habitableZoneAU (.fin l)).inner < (habitableZoneAU (.fin l)).outer) := by
  exact ⟨rfl, rfl, fun l => rfl, hz_fin_inner_lt_outer⟩

/-- C10: for every input record, the boolean field of the constructed state, 
`inHabitableZone` agrees with the three-valued `habitableZoneStatus`
being `"in"`. -/
theorem C10_inHabitableZone_consistent (row : RawRecord) :
    (createSimulationFromRow row).inHabitableZone = true ↔
      (createSimulationFromRow row).habitableZoneStatus = .inZone := by
  simp only [createSimulationFromRow, habitableZoneAU]
  by_cases h : num row "pl_orbsmax" 1 ≥ 0.75 * Real.sqrt ((10 : ℝ) ^ num row "st_lum" 0) ∧
      num row "pl_orbsmax" 1 ≤ 1.77 * Real.sqrt ((10 : ℝ) ^ num row "st_lum" 0)
  · simp [h]
  · rw [if_neg]
    · simp only [decide_eq_true_eq]
      constructor
      · intro hc
        exact absurd hc h
      · intro hif
        by_cases h2 : num row "pl_orbsmax" 1 < 0.75 * Real.sqrt ((10 : ℝ) ^ num row "st_lum" 0)
        · rw [if_pos h2] at hif
          exact absurd hif (by simp)
        · rw [if_neg h2] at hif
          exact absurd hif (by simp)
    · simp only [decide_eq_true_eq]
      exact h

/-- C1: for every constructed state, `habitableZoneStatus` is `"in"`
exactly when `hzInnerAu ≤ orbitAu ≤ hzOuterAu` (boundaries inclusive),
`"too-close"` exactly when `orbitAu < hzInnerAu`, and `"too-far"`
exactly when `orbitAu > hzOuterAu`. -/
theorem C1_habitableZoneStatus_classification (row : RawRecord) :
    ((createSimulationFromRow row).habitableZoneStatus = HZStatus.inZone ↔
      (createSimulationFromRow row).hzInnerAu ≤ (createSimulationFromRow row).orbitAu ∧
        (createSimulationFromRow row).orbitAu ≤ (createSimulationFromRow row).hzOuterAu) ∧
    ((createSimulationFromRow row).habitableZoneStatus = HZStatus.tooClose ↔
      (createSimulationFromRow row).orbitAu < (createSimulationFromRow row).hzInnerAu) ∧
    ((createSimulationFromRow row).habitableZoneStatus = HZStatus.tooFar ↔
      (createSimulationFromRow row).hzOuterAu < (createSimulationFromRow row).orbitAu) := by
  simp only [createSimulationFromRow, habitableZoneAU]
  set a := num row "pl_orbsmax" 1 with ha
  set s := Real.sqrt ((10 : ℝ) ^ num row "st_lum" 0) with hs
  have hio : (0.75 : ℝ) * s < 1.77 * s :=
    mul_lt_mul_of_pos_right (by norm_num) (sqrt_pow_pos _)
  by_cases h : a ≥ 0.75 * s ∧ a ≤ 1.77 * s
  · rw [if_pos (decide_eq_true h)]
    have hl : ¬(a < 0.75 * s) := not_lt.mpr h.1
    have hr : ¬(1.77 * s < a) := not_lt.mpr h.2
    exact ⟨by simp [h.1, h.2], by simp [hl], by simp [hr]⟩
  · rw [if_neg (by simp only [decide_eq_true_eq]; exact h)]
    by_cases h2 : a < 0.75 * s
    · rw [if_pos h2]
      have hin : ¬(0.75 * s ≤ a) := not_le.mpr h2
      have hfar : ¬(1.77 * s < a) := not_lt.mpr (le_of_lt (h2.trans hio))
      exact ⟨by simp [hin], by simp [h2], by simp [hfar]⟩
    · rw [if_neg h2]
      push_neg at h
      have hout : 1.77 * s < a := h (not_lt.mp h2)
      have hnle : ¬(a ≤ 1.77 * s) := not_le.mpr hout
      exact ⟨by simp [hnle], by simp [h2], by simp [hout]⟩

lemma foldl_update (s : SimState) (dts : List ℝ) :
    dts.foldl update s = { s with time := s.time + dts.sum } := by
  induction dts generalizing s with
  | nil => simp
  | cons d ds ih => simp [List.foldl, update, ih, add_assoc]

/-- C8: advancing by `dt1` then `dt2` produces the same state — and hence
the same planet position — as a single advance by `dt1 + dt2`. -/
theorem C8_update_additive (s : SimState) (dt1 dt2 : ℝ) :
    update (update s dt1) dt2 = update s (dt1 + dt2) ∧
    getPlanetPosition (update (update s dt1) dt2) =
      getPlanetPosition (update s (dt1 + dt2)) := by
  have h : update (update s dt1) dt2 = update s (dt1 + dt2) := by
    simp [update, add_assoc]
  exact ⟨h, by rw [h]⟩

/-- C7 counterexample: the claim extends non-negativity of the phase
accumulator to arbitrary real `dt`, but `update` adds `dt` unclamped:
one call with `dt = -1` on a freshly constructed state drives the
accumulator below zero. -/
theorem C7_counterexample_negative_dt :
    (update (createSimulationFromRow []) (-1)).time < 0 := by
  show (createSimulationFromRow []).time + (-1) < 0
  show (0 : ℝ) + (-1) < 0
  norm_num

/-- C7 (amended): the phase accumulator starts at 0, `update dt` adds
exactly `dt`, is non-decreasing for `dt ≥ 0`, and any sequence of
`update` calls with non-negative steps keeps the accumulator
non-negative. -/
theorem C7_phase_accumulator (row : RawRecord) (s : SimState) (dt : ℝ) (dts : List ℝ) :
    (createSimulationFromRow row).time = 0 ∧
    (update s dt).time = s.time + dt ∧
    (0 ≤ dt → s.time ≤ (update s dt).time) ∧
    ((∀ d ∈ dts, 0 ≤ d) → 0 ≤ s.time → 0 ≤ (dts.foldl update s).time) := by
  refine ⟨rfl, rfl, fun hdt => le_add_of_nonneg_right hdt, fun hall h0 => ?_⟩
  rw [foldl_update]
  exact add_nonneg h0 (List.sum_nonneg hall)

/-- C7 witness at a concrete state and step sequence. -/
theorem C7_phase_accumulator_witness :
    (0 : ℝ) ≤ 0.005 ∧
    0 ≤ (([0.005, 0.01] : List ℝ).foldl update (createSimulationFromRow [])).time :=
  ⟨by norm_num,
    (C7_phase_accumulator [] (createSimulationFromRow []) 0.005 [0.005, 0.01]).2.2.2
      (by intro d hd; fin_cases hd <;> norm_num)
      (le_of_eq rfl)⟩

/-- C9: `update` changes only the phase accumulator — every derived field
and the orbit-point cache survive any sequence of `update` calls — and
the cache, fixed at construction, holds exactly 65 points whose `i`-th
entry is `positionAtTime(i * 2π / 64)`. -/
theorem C9_update_frame_and_orbit_cache :
    (∀ (s : SimState) (dts : List ℝ),
      (dts.foldl update s).plName = s.plName ∧
      (dts.foldl update s).hostName = s.hostName ∧
      (dts.foldl update s).orbitAu = s.orbitAu ∧
      (dts.foldl update s).hzInnerAu = s.hzInnerAu ∧
      (dts.foldl update s).hzOuterAu = s.hzOuterAu ∧
      (dts.foldl update s).habitableZoneStatus = s.habitableZoneStatus ∧
      (dts.foldl update s).orbitalPeriodDays = s.orbitalPeriodDays ∧
      (dts.foldl update s).starRadius = s.starRadius ∧
      (dts.foldl update s).planetRadius = s.planetRadius ∧
      (dts.foldl update s).orbitEccentricity = s.orbitEccentricity ∧
      (dts.foldl update s).eccentricityKnown = s.eccentricityKnown ∧
      getOrbitPoints (dts.foldl update s) = getOrbitPoints s) ∧
    (∀ row : RawRecord,
      (getOrbitPoints (createSimulationFromRow row)).length = 65 ∧
      ∀ i : ℕ, i < 65 →
        (getOrbitPoints (createSimulationFromRow row))[i]? =
          some (positionAtTime (createSimulationFromRow row).orbitRadius
            (createSimulationFromRow row).orbitEccentricity
            ((i : ℝ) * (2 * Real.pi) / 64))) := by
  constructor
  · intro s dts
    rw [foldl_update]
    exact ⟨rfl, rfl, rfl, rfl, rfl, rfl, rfl, rfl, rfl, rfl, rfl, rfl⟩
  · intro row
    have hcache : getOrbitPoints (createSimulationFromRow row) =
        (List.range 65).map (fun (i : ℕ) =>
          positionAtTime (createSimulationFromRow row).orbitRadius
            (createSimulationFromRow row).orbitEccentricity
            ((i : ℝ) / 64 * (Real.pi * 2))) := rfl
    constructor
    · rw [hcache]
      simp
    · intro i hi
      rw [hcache, List.getElem?_map, List.getElem?_range hi]
      have harg : (i : ℝ) / 64 * (Real.pi * 2) = (i : ℝ) * (2 * Real.pi) / 64 := by ring
      simp [harg]

/-- C9 witness: cache length and first entry for a concrete record. -/
theorem C9_update_frame_and_orbit_cache_witness :
    (0 : ℕ) < 65 ∧
    (getOrbitPoints (createSimulationFromRow [])).length = 65 ∧
    (getOrbitPoints (createSimulationFromRow []))[0]? =
      some (positionAtTime (createSimulationFromRow []).orbitRadius
        (createSimulationFromRow []).orbitEccentricity
        (((0 : ℕ) : ℝ) * (2 * Real.pi) / 64)) :=
  ⟨by norm_num,
    (C9_update_frame_and_orbit_cache.2 []).1,
    (C9_update_frame_and_orbit_cache.2 []).2 0 (by norm_num)⟩

lemma num_eq_resolvedNum_getD (row : RawRecord) (key : String) (fb : ℝ) :
    num row key fb = (resolvedNum row key).getD fb := by
  unfold num resolvedNum
  cases h : jsGet row key with
  | vNull => rfl
  | vNum x => rfl
  | vNonFinite => rfl
  | vStr s =>
    show (match toNumber (.vStr s) with | some x => x | none => fb) = _
    cases hs : toNumber (.vStr s) <;> simp [hs]

lemma create_orbitEccentricity (row : RawRecord) :
    (createSimulationFromRow row).orbitEccentricity =
      min 0.99 (num row "pl_orbeccen" 0) := rfl

/-- C4 counterexample: the code clamps eccentricity only from above
(`min(0.99, e)`), so a record carrying a negative `pl_orbeccen` yields a
constructed eccentricity below 0, outside the claimed interval. -/
theorem C4_counterexample_negative_eccentricity :
    (createSimulationFromRow
      [("pl_orbeccen", JSVal.vNum (-(1 : ℝ) / 2))]).orbitEccentricity < 0 := by
  rw [create_orbitEccentricity]
  have h : num [("pl_orbeccen", JSVal.vNum (-(1 : ℝ) / 2))] "pl_orbeccen" 0 =
      -(1 : ℝ) / 2 := by
    simp [num, jsGet, rowGet, toNumber]
  rw [h]
  norm_num

/-- C4 (amended): the constructed eccentricity is always at most 0.99,
and lies in `[0, 0.99]` whenever the extracted `pl_orbeccen` value
(defaulting to 0 when absent or non-finite) is non-negative; the code
does not clamp negative values up to 0. -/
theorem C4_eccentricity_range (row : RawRecord) :
    (createSimulationFromRow row).orbitEccentricity ≤ 0.99 ∧
    (0 ≤ num row "pl_orbeccen" 0 →
      0 ≤ (createSimulationFromRow row).orbitEccentricity ∧
        (createSimulationFromRow row).orbitEccentricity ≤ 0.99) := by
  rw [create_orbitEccentricity]
  refine ⟨min_le_left _ _, fun h => ⟨le_min (by norm_num) h, min_le_left _ _⟩⟩

/-- C4 witness: a record with no eccentricity field has a non-negative
extracted value, so the amended bounds apply. -/
theorem C4_eccentricity_range_witness :
    0 ≤ num [] "pl_orbeccen" 0 ∧
    0 ≤ (createSimulationFromRow []).orbitEccentricity ∧
      (createSimulationFromRow []).orbitEccentricity ≤ 0.99 :=
  ⟨by simp [num, jsGet, rowGet],
    (C4_eccentricity_range []).2 (by simp [num, jsGet, rowGet])⟩

lemma create_orbitalPeriodDays (row : RawRecord) :
    (createSimulationFromRow row).orbitalPeriodDays =
      if num row "pl_orbper" 365 > 0 then num row "pl_orbper" 365 else 365 := rfl

/-- C6: elapsed days are `(phase / 2π) * orbitalPeriodDays`, elapsed
years are elapsed days over 365.25, and `orbitalPeriodDays` is the
`pl_orbper` field when that when that resolves to a finite positive number,
and 365 otherwise (absent, non-finite, or non-positive). -/
theorem C6_elapsed_time_and_period (row : RawRecord) (s : SimState) :
    getElapsedDays s = s.time / (2 * Real.pi) * s.orbitalPeriodDays ∧
    getElapsedYears s = getElapsedDays s / 365.25 ∧
    (∀ x : ℝ, resolvedNum row "pl_orbper" = some x → 0 < x →
      (createSimulationFromRow row).orbitalPeriodDays = x) ∧
    (resolvedNum row "pl_orbper" = none →
      (createSimulationFromRow row).orbitalPeriodDays = 365) ∧
    (∀ x : ℝ, resolvedNum row "pl_orbper" = some x → x ≤ 0 →
      (createSimulationFromRow row).orbitalPeriodDays = 365) := by
  refine ⟨rfl, rfl, ?_, ?_, ?_⟩
  · intro x hx hpos
    rw [create_orbitalPeriodDays, num_eq_resolvedNum_getD, hx]
    simp [hpos]
  · intro hx
    rw [create_orbitalPeriodDays, num_eq_resolvedNum_getD, hx]
    norm_num
  · intro x hx hnp
    rw [create_orbitalPeriodDays, num_eq_resolvedNum_getD, hx]
    simp [not_lt.mpr hnp]

/-- C6 witness: a record with `pl_orbper = 100` and one with
`pl_orbper = -5`. -/
theorem C6_elapsed_time_and_period_witness :
    (resolvedNum [("pl_orbper", JSVal.vNum 100)] "pl_orbper" = some 100 ∧
      (0 : ℝ) < 100 ∧
      (createSimulationFromRow [("pl_orbper", JSVal.vNum 100)]).orbitalPeriodDays = 100) ∧
    (resolvedNum [("pl_orbper", JSVal.vNum (-5))] "pl_orbper" = some (-5) ∧
      (-5 : ℝ) ≤ 0 ∧
      (createSimulationFromRow [("pl_orbper", JSVal.vNum (-5))]).orbitalPeriodDays = 365) :=
  ⟨⟨by simp [resolvedNum, jsGet, rowGet, toNumber], by norm_num,
    (C6_elapsed_time_and_period [("pl_orbper", JSVal.vNum 100)]
        (createSimulationFromRow [])).2.2.1 100
      (by simp [resolvedNum, jsGet, rowGet, toNumber]) (by norm_num)⟩,
   ⟨by simp [resolvedNum, jsGet, rowGet, toNumber], by norm_num,
    (C6_elapsed_time_and_period [("pl_orbper", JSVal.vNum (-5))]
        (createSimulationFromRow [])).2.2.2.2 (-5)
      (by simp [resolvedNum, jsGet, rowGet, toNumber]) (by norm_num)⟩⟩

lemma create_orbitRadius (row : RawRecord) :
    (createSimulationFromRow row).orbitRadius = num row "pl_orbsmax" 1 := rfl

/-- C3 counterexample: a record with `pl_orbsmax = 0` (a finite value,
so it is not replaced by the default 1) gives a state whose
eccentricity is 0 — inside `[0, 0.99]` — yet whose radial distance is 0
at every phase, not strictly positive: the claim omits the needed
`orbitRadius > 0` premise. -/
theorem C3_counterexample_zero_axis :
    (createSimulationFromRow [("pl_orbsmax", JSVal.vNum 0)]).orbitEccentricity = 0 ∧
    Real.sqrt
      ((getPlanetPosition (createSimulationFromRow [("pl_orbsmax", JSVal.vNum 0)])).x ^ 2 +
        (getPlanetPosition (createSimulationFromRow [("pl_orbsmax", JSVal.vNum 0)])).z ^ 2) = 0 := by
  have he : (createSimulationFromRow [("pl_orbsmax", JSVal.vNum 0)]).orbitEccentricity = 0 := by
    rw [create_orbitEccentricity]
    have : num [("pl_orbsmax", JSVal.vNum 0)] "pl_orbeccen" 0 = 0 := by
      simp [num, jsGet, rowGet, toNumber, jsToUpper]
    rw [this]
    norm_num
  have ha : (createSimulationFromRow [("pl_orbsmax", JSVal.vNum 0)]).orbitRadius = 0 := by
    rw [create_orbitRadius]
    simp [num, jsGet, rowGet, toNumber]
  refine ⟨he, ?_⟩
  unfold getPlanetPosition
  rw [ha, he]
  simp [positionAtTime, radiusAtAngle]

/-- C3 (amended): the position at phase `t` is
`{x: r·cos t, y: 0, z: r·sin t}` with `r = a(1-e²)/(1+e·cos t)`, the
`y`-coordinate is always exactly 0, and for `e ∈ [0, 0.99]` the radial
distance is strictly positive provided additionally `orbitRadius > 0`
(the code does not force the semi-major axis to be positive). -/
theorem C3_position_formula_and_radius (s : SimState) (a e t : ℝ) :
    getPlanetPosition s = positionAtTime s.orbitRadius s.orbitEccentricity s.time ∧
    positionAtTime a e t =
      ⟨a * (1 - e * e) / (1 + e * Real.cos t) * Real.cos t, 0,
        a * (1 - e * e) / (1 + e * Real.cos t) * Real.sin t⟩ ∧
    (positionAtTime a e t).y = 0 ∧
    (0 ≤ e → e ≤ 0.99 → 0 < a →
      0 < Real.sqrt ((positionAtTime a e t).x ^ 2 + (positionAtTime a e t).z ^ 2)) := by
  refine ⟨rfl, rfl, rfl, fun he he99 ha => ?_⟩
  have hc1 : Real.cos t ≤ 1 := Real.cos_le_one t
  have hc2 : -1 ≤ Real.cos t := Real.neg_one_le_cos t
  have hden : 0 < 1 + e * Real.cos t := by nlinarith
  have hnum : 0 < a * (1 - e * e) := mul_pos ha (by nlinarith)
  have hr : 0 < radiusAtAngle a e t := div_pos hnum hden
  have hsum : (positionAtTime a e t).x ^ 2 + (positionAtTime a e t).z ^ 2 =
      radiusAtAngle a e t ^ 2 := by
    show (radiusAtAngle a e t * Real.cos t) ^ 2 +
        (radiusAtAngle a e t * Real.sin t) ^ 2 = radiusAtAngle a e t ^ 2
    have hsc : Real.sin t ^ 2 + Real.cos t ^ 2 = 1 := Real.sin_sq_add_cos_sq t
    nlinarith [hsc]
  rw [hsum]
  exact Real.sqrt_pos.mpr (pow_pos hr 2)

/-- C3 witness: the default record (semi-major axis 1, eccentricity 0)
at its initial phase. -/
theorem C3_position_formula_and_radius_witness :
    (0 : ℝ) ≤ (createSimulationFromRow []).orbitEccentricity ∧
    (createSimulationFromRow []).orbitEccentricity ≤ 0.99 ∧
    (0 : ℝ) < (createSimulationFromRow []).orbitRadius ∧
    0 < Real.sqrt
      ((positionAtTime (createSimulationFromRow []).orbitRadius
          (createSimulationFromRow []).orbitEccentricity 0).x ^ 2 +
        (positionAtTime (createSimulationFromRow []).orbitRadius
          (createSimulationFromRow []).orbitEccentricity 0).z ^ 2) := by
  have he : (createSimulationFromRow []).orbitEccentricity = 0 := by
    rw [create_orbitEccentricity]
    have : num [] "pl_orbeccen" 0 = 0 := by simp [num, jsGet, rowGet]
    rw [this]
    norm_num
  have ha : (createSimulationFromRow []).orbitRadius = 1 := by
    rw [create_orbitRadius]
    simp [num, jsGet, rowGet]
  refine ⟨by rw [he], by rw [he]; norm_num, by rw [ha]; norm_num, ?_⟩
  exact (C3_position_formula_and_radius (createSimulationFromRow []) _ _ 0).2.2.2
    (by rw [he]) (by rw [he]; norm_num) (by rw [ha]; norm_num)

/-- C5: numeric field extraction resolves the verbatim key first, falls
back to the upper-case key when the verbatim key is null/undefined,
returns the finite numeric coercion of the resolved value, and yields
the caller-supplied fallback — never an error — when both keys are
null/undefined or the resolved value coerces to a non-finite number;
in particular a record supplying only the upper-case key is honoured. -/
theorem C5_num_extraction (row : RawRecord) (key : String) (fb : ℝ) :
    (∀ v x, rowGet row key = some v → v ≠ .vNull → toNumber v = some x →
      num row key fb = x) ∧
    (∀ v x, (rowGet row key = none ∨ rowGet row key = some .vNull) →
      rowGet row (jsToUpper key) = some v → v ≠ .vNull → toNumber v = some x →
      num row key fb = x) ∧
    ((rowGet row key = none ∨ rowGet row key = some .vNull) →
      (rowGet row (jsToUpper key) = none ∨ rowGet row (jsToUpper key) = some .vNull) →
      num row key fb = fb) ∧
    (∀ v, rowGet row key = some v → v ≠ .vNull → toNumber v = none →
      num row key fb = fb) ∧
    (∀ v, (rowGet row key = none ∨ rowGet row key = some .vNull) →
      rowGet row (jsToUpper key) = some v → v ≠ .vNull → toNumber v = none →
      num row key fb = fb) := by
  refine ⟨?_, ?_, ?_, ?_, ?_⟩
  · intro v x h1 hv hx
    cases v with
    | vNull => exact absurd rfl hv
    | vNum y => simp only [num, jsGet, h1]; rw [hx]
    | vNonFinite => simp [toNumber] at hx
    | vStr s => simp only [num, jsGet, h1]; rw [hx]
  · intro v x h1 h2 hv hx
    cases v with
    | vNull => exact absurd rfl hv
    | vNum y => rcases h1 with h1 | h1 <;> (simp only [num, jsGet, h1, h2]; rw [hx])
    | vNonFinite => simp [toNumber] at hx
    | vStr s => rcases h1 with h1 | h1 <;> (simp only [num, jsGet, h1, h2]; rw [hx])
  · intro h1 h2
    rcases h1 with h1 | h1 <;> rcases h2 with h2 | h2 <;>
      simp only [num, jsGet, h1, h2]
  · intro v h1 hv hx
    cases v with
    | vNull => exact absurd rfl hv
    | vNum y => simp [toNumber] at hx
    | vNonFinite => simp only [num, jsGet, h1]; rw [hx]
    | vStr s => simp only [num, jsGet, h1]; rw [hx]
  · intro v h1 h2 hv hx
    cases v with
    | vNull => exact absurd rfl hv
    | vNum y => simp [toNumber] at hx
    | vNonFinite => rcases h1 with h1 | h1 <;> (simp only [num, jsGet, h1, h2]; rw [hx])
    | vStr s => rcases h1 with h1 | h1 <;> (simp only [num, jsGet, h1, h2]; rw [hx])

/-- C5 witness: a record carrying only upper-case keys, one numeric and
one the non-numeric string `"N/A"`. -/
theorem C5_num_extraction_witness :
    num [("PL_RADE", JSVal.vStr "N/A"), ("ST_RAD", JSVal.vNum 2)] "st_rad" 1 = 2 ∧
    num [("PL_RADE", JSVal.vStr "N/A"), ("ST_RAD", JSVal.vNum 2)] "pl_rade" 1 = 1 := by
  constructor
  · exact (C5_num_extraction
        [("PL_RADE", JSVal.vStr "N/A"), ("ST_RAD", JSVal.vNum 2)] "st_rad" 1).2.1
      (JSVal.vNum 2) 2
      (Or.inl (by simp [rowGet]))
      (by simp [rowGet, jsToUpper])
      (by intro h; cases h)
      rfl
  · exact (C5_num_extraction
        [("PL_RADE", JSVal.vStr "N/A"), ("ST_RAD", JSVal.vNum 2)] "pl_rade" 1).2.2.2.2
      (JSVal.vStr "N/A")
      (Or.inl (by simp [rowGet]))
      (by simp [rowGet, jsToUpper])
      (by intro h; cases h)
      (by simp [toNumber, show strToNum "N/A" = none from by decide])

end ExoSim
